import Mathlib

/-!
# Deserialization errors

A shallow embedding of `lib/Serialization/DeserializationErrors.h`: the
cross-reference trace path (`XRefTracePath` and its private `PathPiece`) and the
error classes `DeclDeserializationError`, `XRefError`, `OverrideError` and
`TypeError`.

Conventions of the embedding.

* A `raw_ostream` is the text written to it so far; `os << x` appends the text
  of `x`, so every printing member takes the stream and returns it extended.
* An integer argument (`uint8_t` or `uintptr_t`) is a natural number. The members
  store it, compare it with case labels and print it; they never compute with
  it, and the only conversion is the widening `static_cast<uintptr_t>`, so the
  value stored is the value passed and nothing can overflow.
* `SmallVector<PathPiece, 8>` is a list, `push_back` appends at the end and
  `pop_back` drops the last element.
* `std::unique_ptr<ErrorInfoBase>` is an `Option`, the null pointer being `none`.
-/

namespace Serialization

/-! ## Collaborators declared outside this header -/

/-- Modelled from the spec: the output sink `llvm::raw_ostream`, "a text sink
accepting incremental writes", represented by the text it has received. -/
abbrev raw_ostream := String

/-- Modelled from the spec: the symbol-name handle `Identifier`
(swift/AST/Identifier.h), "a symbol-name handle with textual form". Only the text
that `os << name` writes is recorded. -/
structure Identifier where
  text : String
deriving DecidableEq, Repr

/-- Modelled from the spec: the type-descriptor handle `Type`, "a type-descriptor
handle with textual form". Only the text that `os << ty` writes is recorded. -/
structure SwiftType where
  text : String
deriving DecidableEq, Repr

/-- Modelled from the spec: the declaration name `DeclName` stored by
`OverrideError` and `TypeError`; only the text that `os << name` writes is
recorded. -/
structure DeclName where
  text : String
deriving DecidableEq, Repr

/-- Modelled from the spec: the module handle `ModuleDecl` (swift/AST/Module.h),
"a module handle exposing a display name". -/
structure ModuleDecl where
  name : Identifier
deriving DecidableEq, Repr

/-- The member `ModuleDecl::getName()`. -/
def ModuleDecl.getName (M : ModuleDecl) : Identifier := M.name

/-- Modelled from the spec: the enumerators of swift/Serialization/ModuleFormat.h
that the two inner `switch` statements of `PathPiece::print` use as case labels.
Their numeric encoding "is defined by the surrounding binary format", so the
values are parameters of the embedding. -/
structure ModuleFormat where
  Infix : Nat
  Prefix : Nat
  Postfix : Nat
  Getter : Nat
  Setter : Nat
  MaterializeForSet : Nat
  Addressor : Nat
  MutableAddressor : Nat
  WillSet : Nat
  DidSet : Nat
deriving DecidableEq, Repr

/-- The case labels of the `Kind::OperatorFilter` switch, in source order. C++
requires the labels of one `switch` to be pairwise different. -/
def ModuleFormat.fixityCodes (fmt : ModuleFormat) : List Nat :=
  [fmt.Infix, fmt.Prefix, fmt.Postfix]

/-- The case labels of the `Kind::Accessor` switch, in source order. -/
def ModuleFormat.accessorCodes (fmt : ModuleFormat) : List Nat :=
  [fmt.Getter, fmt.Setter, fmt.MaterializeForSet, fmt.Addressor,
   fmt.MutableAddressor, fmt.WillSet, fmt.DidSet]

/-- A sample encoding of the fixity and accessor enumerators, used to evaluate
the embedding on concrete inputs. -/
def sampleFormat : ModuleFormat where
  Infix := 0
  Prefix := 1
  Postfix := 2
  Getter := 0
  Setter := 1
  WillSet := 2
  DidSet := 3
  MaterializeForSet := 4
  Addressor := 5
  MutableAddressor := 6

/-! ## `XRefTracePath::PathPiece` -/

/-- The enumeration `PathPiece::Kind`. -/
inductive PathPiece.Kind where
  | Value
  | «Type»
  | Operator
  | OperatorFilter
  | Accessor
  | Extension
  | GenericParam
  | Unknown
deriving DecidableEq, Repr

/-- The class `PathPiece`: a kind tag and a pointer-sized slot `data` that
`getDataAs<T>` reads back at the type the tag selects. The class is private to
`XRefTracePath` and its constructor is only called by the `add*` members, each
with the payload type of its kind, so a piece is a tagged union with one payload
per kind. The `Extension` payload is a `ModuleDecl *`, null being `none`. -/
inductive PathPiece where
  | Value (name : Identifier)
  | «Type» (ty : SwiftType)
  | Operator (name : Identifier)
  | OperatorFilter (fixity : Nat)
  | Accessor (kind : Nat)
  | Extension (M : Option ModuleDecl)
  | GenericParam (index : Nat)
  | Unknown (kind : Nat)
deriving DecidableEq, Repr

/-- The field `PathPiece::kind`. -/
def PathPiece.kind : PathPiece → PathPiece.Kind
  | .Value _ => .Value
  | .«Type» _ => .«Type»
  | .Operator _ => .Operator
  | .OperatorFilter _ => .OperatorFilter
  | .Accessor _ => .Accessor
  | .Extension _ => .Extension
  | .GenericParam _ => .GenericParam
  | .Unknown _ => .Unknown

/-- The inner `switch` of `case Kind::OperatorFilter`. -/
def PathPiece.printOperatorFilter (fmt : ModuleFormat) (code : Nat)
    (os : raw_ostream) : raw_ostream :=
  if code = fmt.Infix then os ++ "(infix)"
  else if code = fmt.Prefix then os ++ "(prefix)"
  else if code = fmt.Postfix then os ++ "(postfix)"
  else os ++ "(unknown operator filter)"

/-- The inner `switch` of `case Kind::Accessor`. -/
def PathPiece.printAccessor (fmt : ModuleFormat) (code : Nat)
    (os : raw_ostream) : raw_ostream :=
  if code = fmt.Getter then os ++ "(getter)"
  else if code = fmt.Setter then os ++ "(setter)"
  else if code = fmt.MaterializeForSet then os ++ "(materializeForSet)"
  else if code = fmt.Addressor then os ++ "(addressor)"
  else if code = fmt.MutableAddressor then os ++ "(mutableAddressor)"
  else if code = fmt.WillSet then os ++ "(willSet)"
  else if code = fmt.DidSet then os ++ "(didSet)"
  else os ++ "(unknown accessor kind)"

/-- The member `PathPiece::print(raw_ostream &os)`. An unsigned integer is
written as its decimal numeral. -/
def PathPiece.print (fmt : ModuleFormat) (piece : PathPiece)
    (os : raw_ostream) : raw_ostream :=
  match piece with
  | .Value name => os ++ name.text
  | .«Type» ty => os ++ "with type " ++ ty.text
  | .Extension (some M) =>
      os ++ "in an extension in module '" ++ M.getName.text ++ "'"
  | .Extension none => os ++ "in an extension in any module"
  | .Operator name => os ++ "operator " ++ name.text
  | .OperatorFilter fixity => PathPiece.printOperatorFilter fmt fixity os
  | .Accessor kind => PathPiece.printAccessor fmt kind os
  | .GenericParam index => os ++ "generic param #" ++ Nat.repr index
  | .Unknown kind => os ++ "unknown xref kind " ++ Nat.repr kind

/-! ## `XRefTracePath` -/

/-- The class `XRefTracePath`: the module `baseM` the path starts from and the
pieces recorded so far. -/
structure XRefTracePath where
  baseM : ModuleDecl
  path : List PathPiece
deriving DecidableEq, Repr

namespace XRefTracePath

/-- The constructor `XRefTracePath(ModuleDecl &M)`: no piece yet. -/
def new (M : ModuleDecl) : XRefTracePath := { baseM := M, path := [] }

/-- The call `path.push_back(piece)`. -/
def push_back (p : XRefTracePath) (piece : PathPiece) : XRefTracePath :=
  { p with path := p.path ++ [piece] }

/-- The member `addValue(Identifier name)`. -/
def addValue (p : XRefTracePath) (name : Identifier) : XRefTracePath :=
  p.push_back (.Value name)

/-- The member `addType(Type ty)`. -/
def addType (p : XRefTracePath) (ty : SwiftType) : XRefTracePath :=
  p.push_back (.«Type» ty)

/-- The member `addOperator(Identifier name)`. -/
def addOperator (p : XRefTracePath) (name : Identifier) : XRefTracePath :=
  p.push_back (.Operator name)

/-- The member `addOperatorFilter(uint8_t fixity)`; the code is widened to
`uintptr_t` unchanged. -/
def addOperatorFilter (p : XRefTracePath) (fixity : Nat) : XRefTracePath :=
  p.push_back (.OperatorFilter fixity)

/-- The member `addAccessor(uint8_t kind)`; the code is widened to `uintptr_t`
unchanged. -/
def addAccessor (p : XRefTracePath) (kind : Nat) : XRefTracePath :=
  p.push_back (.Accessor kind)

/-- The member `addExtension(ModuleDecl *M)`. -/
def addExtension (p : XRefTracePath) (M : Option ModuleDecl) : XRefTracePath :=
  p.push_back (.Extension M)

/-- The member `addGenericParam(uintptr_t index)`. -/
def addGenericParam (p : XRefTracePath) (index : Nat) : XRefTracePath :=
  p.push_back (.GenericParam index)

/-- The member `addUnknown(uintptr_t kind)`. -/
def addUnknown (p : XRefTracePath) (kind : Nat) : XRefTracePath :=
  p.push_back (.Unknown kind)

/-- The member `removeLast()`, that is `path.pop_back()`. Popping an empty
vector violates the assertion of `SmallVector`, which is the result `none`. -/
def removeLast (p : XRefTracePath) : Option XRefTracePath :=
  if p.path.isEmpty then none else some { p with path := p.path.dropLast }

/-- The member `print(raw_ostream &os, StringRef leading)`. -/
def print (fmt : ModuleFormat) (p : XRefTracePath) (os : raw_ostream)
    (leading : String) : raw_ostream :=
  p.path.foldl
    (fun os piece => piece.print fmt (os ++ leading ++ "... ") ++ "\n")
    (os ++ "Cross-reference to module '" ++ p.baseM.getName.text ++ "'\n")

/-- The call `print(os)`, where `leading` takes its default value `""`. -/
def printDefault (fmt : ModuleFormat) (p : XRefTracePath)
    (os : raw_ostream) : raw_ostream :=
  p.print fmt os ""

end XRefTracePath

/-- One call of an `add*` member with its argument. -/
inductive AddOp where
  | addValue (name : Identifier)
  | addType (ty : SwiftType)
  | addOperator (name : Identifier)
  | addOperatorFilter (fixity : Nat)
  | addAccessor (kind : Nat)
  | addExtension (M : Option ModuleDecl)
  | addGenericParam (index : Nat)
  | addUnknown (kind : Nat)
deriving DecidableEq, Repr

/-- Performs the call `op` on the path `p`. -/
def AddOp.apply (op : AddOp) (p : XRefTracePath) : XRefTracePath :=
  match op with
  | .addValue name => p.addValue name
  | .addType ty => p.addType ty
  | .addOperator name => p.addOperator name
  | .addOperatorFilter fixity => p.addOperatorFilter fixity
  | .addAccessor kind => p.addAccessor kind
  | .addExtension M => p.addExtension M
  | .addGenericParam index => p.addGenericParam index
  | .addUnknown kind => p.addUnknown kind

/-- The piece that the `add*` member of `op` builds from its argument. -/
def AddOp.piece : AddOp → PathPiece
  | .addValue name => .Value name
  | .addType ty => .«Type» ty
  | .addOperator name => .Operator name
  | .addOperatorFilter fixity => .OperatorFilter fixity
  | .addAccessor kind => .Accessor kind
  | .addExtension M => .Extension M
  | .addGenericParam index => .GenericParam index
  | .addUnknown kind => .Unknown kind

/-! ## The error classes -/

/-- The class token of an error class: the address of its static member `ID`.
Different classes have different `ID` objects, hence different tokens; the
tokens of classes declared outside this header are numbered. -/
inductive ClassID where
  | ErrorInfoBase
  | DeclDeserializationError
  | XRefError
  | OverrideError
  | TypeError
  | foreign (n : Nat)
deriving DecidableEq, Repr

/-- The enumeration `DeclDeserializationError::Kind`. -/
inductive DeclDeserializationError.Kind where
  | Normal
  | DesignatedInitializer
deriving DecidableEq, Repr

/-- Modelled from the spec: the value `std::error_code` returned by
`convertToErrorCode`, of which `llvm::inconvertibleErrorCode()` is the
"inconvertible" marker; any other code is a number. -/
inductive error_code where
  | inconvertibleErrorCode
  | code (value : Nat)
deriving DecidableEq, Repr

/-- An error value, as held by a `std::unique_ptr<ErrorInfoBase>`: one of the three
concrete classes of this header, or a value of a class declared elsewhere.
The latter is given by what its virtual members answer: the tokens of its
class and of its ancestors below `llvm::ErrorInfoBase`, the text its `log`
writes, and its error code. An `XRefError` has no field for the inherited member
`kind`, which its constructor never assigns. -/
inductive ErrorInfoBase where
  | XRefError (path : XRefTracePath) (message : String)
  | OverrideError (name : DeclName) (kind : DeclDeserializationError.Kind)
  | TypeError (name : DeclName) (underlyingReason : Option ErrorInfoBase)
      (kind : DeclDeserializationError.Kind)
  | Foreign (classes : List ClassID) (text : String) (code : error_code)

/-- Modelled from the spec: `llvm::ErrorInfoBase::isA` (llvm/Support/Error.h),
the root of every class-identity test: the token is compared with the root
class's own. -/
def ErrorInfoBase.isA_root (classID : ClassID) : Bool :=
  classID == ClassID.ErrorInfoBase

namespace DeclDeserializationError

/-- The static member `DeclDeserializationError::classID()`. -/
def classID : ClassID := ClassID.DeclDeserializationError

/-- The member `DeclDeserializationError::isA`:
`ClassID == classID() || ErrorInfoBase::isA(ClassID)`. -/
def isA (ClassID : ClassID) : Bool :=
  ClassID == classID || ErrorInfoBase.isA_root ClassID

end DeclDeserializationError

/-- The constructor `XRefError(message, path)`. -/
def XRefError.new (message : String) (path : XRefTracePath) : ErrorInfoBase :=
  .XRefError path message

/-- The static member `XRefError::classID()`. -/
def XRefError.classID : ClassID := ClassID.XRefError

/-- The constructor `OverrideError(name, kind)`. -/
def OverrideError.new (name : DeclName) (kind : DeclDeserializationError.Kind) :
    ErrorInfoBase :=
  .OverrideError name kind

/-- The call `OverrideError(name)`, where `kind` takes its default `Normal`. -/
def OverrideError.newDefault (name : DeclName) : ErrorInfoBase :=
  OverrideError.new name .Normal

/-- The static member `OverrideError::classID()`. -/
def OverrideError.classID : ClassID := ClassID.OverrideError

/-- The constructor `TypeError(name, reason, kind)`. -/
def TypeError.new (name : DeclName) (reason : Option ErrorInfoBase)
    (kind : DeclDeserializationError.Kind) : ErrorInfoBase :=
  .TypeError name reason kind

/-- The call `TypeError(name, reason)`, where `kind` takes its default `Normal`. -/
def TypeError.newDefault (name : DeclName) (reason : Option ErrorInfoBase) :
    ErrorInfoBase :=
  TypeError.new name reason .Normal

/-- The static member `TypeError::classID()`. -/
def TypeError.classID : ClassID := ClassID.TypeError

namespace ErrorInfoBase

/-- The virtual member `isA`. The three classes of this header inherit it from
`llvm::ErrorInfo<ThisErrT, DeclDeserializationError>`, modelled from the spec
("a static per-class token compared through `isA`"): the token is compared with
the class's own and then handed to `DeclDeserializationError::isA`. None of
them overrides it, and the nested cause of a `TypeError` takes no part. -/
def isA (e : ErrorInfoBase) (classID : ClassID) : Bool :=
  match e with
  | .XRefError _ _ =>
      classID == XRefError.classID || DeclDeserializationError.isA classID
  | .OverrideError _ _ =>
      classID == OverrideError.classID || DeclDeserializationError.isA classID
  | .TypeError _ _ _ =>
      classID == TypeError.classID || DeclDeserializationError.isA classID
  | .Foreign classes _ _ =>
      classes.contains classID || ErrorInfoBase.isA_root classID

/-- The member `DeclDeserializationError::getKind()`, for the values that have
it: `kind` is `Normal` unless a constructor assigns it. -/
def getKind : ErrorInfoBase → Option DeclDeserializationError.Kind
  | .XRefError _ _ => some .Normal
  | .OverrideError _ kind => some kind
  | .TypeError _ _ kind => some kind
  | .Foreign _ _ _ => none

/-- The virtual member `log(raw_ostream &OS)`. -/
def log (fmt : ModuleFormat) : ErrorInfoBase → raw_ostream → raw_ostream
  | .XRefError path message, OS => path.printDefault fmt (OS ++ message ++ "\n")
  | .OverrideError name _, OS =>
      OS ++ "could not find '" ++ name.text ++ "' in parent class"
  | .TypeError name none _, OS =>
      OS ++ "could not deserialize type for '" ++ name.text ++ "'"
  | .TypeError name (some reason) _, OS =>
      log fmt reason (OS ++ "could not deserialize type for '" ++ name.text ++ "'" ++ ": ")
  | .Foreign _ text _, OS => OS ++ text

/-- The virtual member `convertToErrorCode()`. -/
def convertToErrorCode : ErrorInfoBase → error_code
  | .XRefError _ _ => error_code.inconvertibleErrorCode
  | .OverrideError _ _ => error_code.inconvertibleErrorCode
  | .TypeError _ _ _ => error_code.inconvertibleErrorCode
  | .Foreign _ _ code => code

/-- The error `c` wraps the error `e` as a nested cause: `e` is the
`underlyingReason` of `c`, or is wrapped by that reason in turn. -/
def wraps : ErrorInfoBase → ErrorInfoBase → Prop
  | .TypeError _ (some reason) _, e => e = reason ∨ wraps reason e
  | _, _ => False

/-- The tokens of the class of an error value and of the classes it derives
from, as the class declarations of the header give them. An error is of
category `X` when the token of `X` is among them. -/
def classChain : ErrorInfoBase → List ClassID
  | .XRefError _ _ =>
      [ClassID.XRefError, ClassID.DeclDeserializationError, ClassID.ErrorInfoBase]
  | .OverrideError _ _ =>
      [ClassID.OverrideError, ClassID.DeclDeserializationError, ClassID.ErrorInfoBase]
  | .TypeError _ _ _ =>
      [ClassID.TypeError, ClassID.DeclDeserializationError, ClassID.ErrorInfoBase]
  | .Foreign classes _ _ => classes ++ [ClassID.ErrorInfoBase]

end ErrorInfoBase

/-! ## Sequences of calls, nested errors and lines of text -/

/-- Performs the `add*` calls of `ops` on the path `p`, first call first. -/
def AddOp.applyAll (ops : List AddOp) (p : XRefTracePath) : XRefTracePath :=
  ops.foldl (fun q op => op.apply q) p

/-- Performs `n` calls of `removeLast()` in a row; `none` as soon as one of
them pops an empty path. -/
def XRefTracePath.removeLastN : Nat → XRefTracePath → Option XRefTracePath
  | 0, p => some p
  | n + 1, p => p.removeLast.bind (XRefTracePath.removeLastN n)

/-- The text that a collaborator supplies for a piece and that `print` copies
into the output: a name, a type or a module name. The other pieces are
rendered from a number or from fixed fragments only. -/
def PathPiece.payloadText : PathPiece → String
  | .Value name => name.text
  | .«Type» ty => ty.text
  | .Operator name => name.text
  | .Extension (some M) => M.getName.text
  | _ => ""

/-- A text has no line break inside. -/
def singleLine (s : String) : Prop := '\n' ∉ s.data

instance (s : String) : Decidable (singleLine s) := by
  unfold singleLine; exact inferInstance

/-- Cuts a text into its newline-terminated lines, `cur` being the characters
of the current line read so far, last one first. The result is `none` when
text is left after the last newline. -/
def splitLines : List Char → List Char → Option (List String)
  | [], [] => some []
  | [], _ :: _ => none
  | c :: cs, cur =>
      if c = '\n' then (splitLines cs []).map (String.mk cur.reverse :: ·)
      else splitLines cs (c :: cur)

/-- The newline-terminated lines a text consists of, without their newlines. -/
def linesOf (s : String) : Option (List String) := splitLines s.data []

/-! ## Auxiliary facts about the text sink -/

theorem join_cons_eq (a : String) (l : List String) :
    String.join (a :: l) = a ++ String.join l := by
  have h : ∀ (l : List String) (acc : String),
      List.foldl (fun r s => r ++ s) acc l = acc ++ List.foldl (fun r s => r ++ s) "" l := by
    intro l
    induction l with
    | nil => intro acc; simp
    | cons b t ih =>
      intro acc
      simp only [List.foldl_cons]
      rw [ih (acc ++ b), ih ("" ++ b), String.empty_append, String.append_assoc]
  simp only [String.join, List.foldl_cons]
  rw [h l ("" ++ a), String.empty_append]

theorem PathPiece.printOperatorFilter_append (fmt : ModuleFormat) (code : Nat)
    (os : raw_ostream) :
    PathPiece.printOperatorFilter fmt code os
      = os ++ PathPiece.printOperatorFilter fmt code "" := by
  unfold PathPiece.printOperatorFilter
  repeat' split
  all_goals simp only [String.empty_append]

theorem PathPiece.printAccessor_append (fmt : ModuleFormat) (code : Nat)
    (os : raw_ostream) :
    PathPiece.printAccessor fmt code os = os ++ PathPiece.printAccessor fmt code "" := by
  unfold PathPiece.printAccessor
  repeat' split
  all_goals simp only [String.empty_append]

/-- What a piece writes does not depend on what the sink already holds. -/
theorem PathPiece.print_append (fmt : ModuleFormat) (piece : PathPiece)
    (os : raw_ostream) :
    piece.print fmt os = os ++ piece.print fmt "" := by
  cases piece with
  | OperatorFilter c => exact PathPiece.printOperatorFilter_append fmt c os
  | Accessor c => exact PathPiece.printAccessor_append fmt c os
  | Extension M =>
    cases M <;> simp only [PathPiece.print, String.empty_append, String.append_assoc]
  | _ => simp only [PathPiece.print, String.empty_append, String.append_assoc]

/-- The loop of `XRefTracePath::print`, started on any sink. -/
theorem XRefTracePath.print_loop (fmt : ModuleFormat) (leading : String)
    (pieces : List PathPiece) (os : raw_ostream) :
    pieces.foldl
        (fun os piece => piece.print fmt (os ++ leading ++ "... ") ++ "\n") os
      = os ++ String.join
          (pieces.map fun piece => leading ++ "... " ++ piece.print fmt "" ++ "\n") := by
  induction pieces generalizing os with
  | nil => simp [String.join]
  | cons piece rest ih =>
    simp only [List.foldl_cons, List.map_cons, join_cons_eq]
    rw [ih, PathPiece.print_append]
    simp only [String.append_assoc]

/-- The header line followed by the lines of the loop, on any sink. -/
theorem XRefTracePath.print_unfold (fmt : ModuleFormat) (p : XRefTracePath)
    (leading : String) (os : raw_ostream) :
    p.print fmt os leading
      = os ++ ("Cross-reference to module '" ++ p.baseM.getName.text ++ "'\n"
          ++ String.join
              (p.path.map fun piece =>
                leading ++ "... " ++ piece.print fmt "" ++ "\n")) := by
  unfold XRefTracePath.print
  rw [XRefTracePath.print_loop]
  simp only [String.append_assoc]

/-! ## The trace path -/

/-- C1: `XRefTracePath::print` extends the sink by exactly the header line
"Cross-reference to module '<module name>'" and then, for each piece in sequence
order, one line made of the leading indent, "... " and the rendering of the
piece; the header carries no indent, and the call without an indent is the call
with the empty indent. -/
theorem XRefTracePath.print_writes (fmt : ModuleFormat) (p : XRefTracePath)
    (ind : String) (os : raw_ostream) :
    p.print fmt os ind
        = os ++ ("Cross-reference to module '" ++ p.baseM.getName.text ++ "'\n"
            ++ String.join
                (p.path.map fun piece => ind ++ "... " ++ piece.print fmt "" ++ "\n"))
      ∧ p.printDefault fmt os = p.print fmt os "" :=
  ⟨XRefTracePath.print_unfold fmt p ind os, rfl⟩

/-! ## The error classes -/

/-- What `XRefTracePath::print` writes does not depend on what the sink holds. -/
theorem XRefTracePath.print_sink_append (fmt : ModuleFormat) (p : XRefTracePath)
    (os : raw_ostream) (leading : String) :
    p.print fmt os leading = os ++ p.print fmt "" leading := by
  rw [XRefTracePath.print_unfold fmt p leading os,
    XRefTracePath.print_unfold fmt p leading "", String.empty_append]

/-- What `log` writes does not depend on what the sink already holds. -/
theorem ErrorInfoBase.log_append (fmt : ModuleFormat) :
    ∀ (e : ErrorInfoBase) (OS : raw_ostream), e.log fmt OS = OS ++ e.log fmt ""
  | .XRefError path message, OS => by
    simp only [ErrorInfoBase.log, XRefTracePath.printDefault]
    rw [XRefTracePath.print_sink_append fmt path (OS ++ message ++ "\n"),
      XRefTracePath.print_sink_append fmt path ("" ++ message ++ "\n")]
    simp only [String.empty_append, String.append_assoc]
  | .OverrideError name _, OS => by
    simp only [ErrorInfoBase.log, String.empty_append, String.append_assoc]
  | .TypeError name none _, OS => by
    simp only [ErrorInfoBase.log, String.empty_append, String.append_assoc]
  | .TypeError name (some reason) _, OS => by
    simp only [ErrorInfoBase.log]
    rw [ErrorInfoBase.log_append fmt reason
        (OS ++ "could not deserialize type for '" ++ name.text ++ "'" ++ ": "),
      ErrorInfoBase.log_append fmt reason
        ("" ++ "could not deserialize type for '" ++ name.text ++ "'" ++ ": ")]
    simp only [String.empty_append, String.append_assoc]
  | .Foreign _ text _, OS => by
    simp only [ErrorInfoBase.log, String.empty_append]

/-- C2: `TypeError::log` extends the sink by "could not deserialize type for
'<name>'" and nothing else when there is no cause, and by that text, ": " and
exactly what the cause's own `log` writes when there is one; for the name "X"
and the cause `OverrideError` of "Y" the text is "could not deserialize type
for 'X': could not find 'Y' in parent class". -/
theorem TypeError.log_writes (fmt : ModuleFormat) (name : DeclName)
    (kind : DeclDeserializationError.Kind) (cause : ErrorInfoBase)
    (OS : raw_ostream) :
    (TypeError.new name none kind).log fmt OS
        = OS ++ ("could not deserialize type for '" ++ name.text ++ "'")
      ∧ (TypeError.new name (some cause) kind).log fmt OS
        = OS ++ ("could not deserialize type for '" ++ name.text ++ "'" ++ ": "
            ++ cause.log fmt "")
      ∧ (TypeError.newDefault { text := "X" }
            (some (OverrideError.newDefault { text := "Y" }))).log fmt ""
        = "could not deserialize type for 'X': could not find 'Y' in parent class" := by
  refine ⟨?_, ?_, ?_⟩
  · simp only [TypeError.new, ErrorInfoBase.log, String.append_assoc]
  · simp only [TypeError.new, ErrorInfoBase.log]
    rw [ErrorInfoBase.log_append]
    simp only [String.append_assoc]
  · rfl

/-- C3: asked with the token of `DeclDeserializationError`, `isA` answers true
on every `XRefError`, every `OverrideError` and every `TypeError`, whatever its
cause, and false on every error whose class does not derive from
`DeclDeserializationError`. -/
theorem ErrorInfoBase.isA_family (path : XRefTracePath) (message : String)
    (name : DeclName) (kind : DeclDeserializationError.Kind)
    (cause : Option ErrorInfoBase) (classes : List ClassID) (text : String)
    (code : error_code) :
    (XRefError.new message path).isA DeclDeserializationError.classID = true
      ∧ (OverrideError.new name kind).isA DeclDeserializationError.classID = true
      ∧ (TypeError.new name cause kind).isA DeclDeserializationError.classID = true
      ∧ (DeclDeserializationError.classID ∉ classes →
          (ErrorInfoBase.Foreign classes text code).isA
            DeclDeserializationError.classID = false) := by
  refine ⟨rfl, rfl, rfl, ?_⟩
  intro h
  have hc : classes.contains DeclDeserializationError.classID = false := by
    cases hb : classes.contains DeclDeserializationError.classID with
    | false => rfl
    | true => exact absurd (List.mem_of_elem_eq_true hb) h
  simp only [ErrorInfoBase.isA, hc, Bool.false_or]
  rfl

/-- Evaluation of C3 on an error of a class declared elsewhere, and on a
`TypeError` that wraps an `OverrideError`. -/
theorem ErrorInfoBase.isA_family_witness :
    DeclDeserializationError.classID ∉ [ClassID.foreign 7]
      ∧ (TypeError.new { text := "X" }
            (some (OverrideError.new { text := "Y" } .Normal)) .Normal).isA
          DeclDeserializationError.classID = true
      ∧ (ErrorInfoBase.Foreign [ClassID.foreign 7] "timeout"
            (error_code.code 5)).isA DeclDeserializationError.classID = false :=
  have h := ErrorInfoBase.isA_family (XRefTracePath.new { name := { text := "M" } })
    "msg" { text := "X" } .Normal
    (some (OverrideError.new { text := "Y" } .Normal)) [ClassID.foreign 7] "timeout"
    (error_code.code 5)
  ⟨by decide, h.2.2.1, h.2.2.2 (by decide)⟩

/-- C4, as stated, fails: a `TypeError` that wraps an `OverrideError` answers
false for the token of `OverrideError`, although the error it wraps is of that
class; the answer of `isA` is not "the error or one it wraps is of the class". -/
theorem ErrorInfoBase.isA_ignores_cause :
    (TypeError.new { text := "X" }
        (some (OverrideError.new { text := "Y" } .Normal)) .Normal).isA
        OverrideError.classID = false
      ∧ ¬ ((TypeError.new { text := "X" }
              (some (OverrideError.new { text := "Y" } .Normal)) .Normal).isA
            OverrideError.classID = true
          ↔ (OverrideError.classID
                ∈ (TypeError.new { text := "X" }
                    (some (OverrideError.new { text := "Y" } .Normal))
                    .Normal).classChain
              ∨ ∃ c, (TypeError.new { text := "X" }
                    (some (OverrideError.new { text := "Y" } .Normal))
                    .Normal).wraps c
                  ∧ OverrideError.classID ∈ c.classChain)) := by
  refine ⟨rfl, ?_⟩
  intro h
  have hr : (TypeError.new { text := "X" }
      (some (OverrideError.new { text := "Y" } .Normal)) .Normal).isA
      OverrideError.classID = true :=
    h.mpr (Or.inr ⟨OverrideError.new { text := "Y" } .Normal, by
      simp [TypeError.new, OverrideError.new, ErrorInfoBase.wraps], by
      simp [OverrideError.new, OverrideError.classID, ErrorInfoBase.classChain]⟩)
  exact absurd hr (by decide)

/-- C4, amended: `isA` answers true for a class token exactly when the error
itself is of that class or of a class derived from it; the nested cause of a
`TypeError` is not consulted, so the answer is the one given without a cause. -/
theorem ErrorInfoBase.isA_iff_own_class (e : ErrorInfoBase) (X : ClassID)
    (name : DeclName) (cause : Option ErrorInfoBase)
    (kind : DeclDeserializationError.Kind) :
    (e.isA X = true ↔ X ∈ e.classChain)
      ∧ (TypeError.new name cause kind).isA X
          = (TypeError.new name none kind).isA X := by
  refine ⟨?_, rfl⟩
  cases e with
  | XRefError path message =>
    cases X <;>
      simp [ErrorInfoBase.isA, ErrorInfoBase.classChain, ErrorInfoBase.isA_root,
        DeclDeserializationError.isA, DeclDeserializationError.classID,
        XRefError.classID]
  | OverrideError name kind =>
    cases X <;>
      simp [ErrorInfoBase.isA, ErrorInfoBase.classChain, ErrorInfoBase.isA_root,
        DeclDeserializationError.isA, DeclDeserializationError.classID,
        OverrideError.classID]
  | TypeError name reason kind =>
    cases X <;>
      simp [ErrorInfoBase.isA, ErrorInfoBase.classChain, ErrorInfoBase.isA_root,
        DeclDeserializationError.isA, DeclDeserializationError.classID,
        TypeError.classID]
  | Foreign classes text code =>
    simp [ErrorInfoBase.isA, ErrorInfoBase.classChain, ErrorInfoBase.isA_root]

/-! ## Appending and backtracking -/

/-- Every `add*` member is one `push_back` of the piece built from its
argument. -/
theorem AddOp.apply_eq_push_back (op : AddOp) (p : XRefTracePath) :
    op.apply p = p.push_back op.piece := by
  cases op <;> rfl

/-- Popping right after a `push_back` gives the path back. -/
theorem XRefTracePath.removeLast_push_back (p : XRefTracePath) (piece : PathPiece) :
    (p.push_back piece).removeLast = some p := by
  have hne : (p.path ++ [piece]).isEmpty = false := by
    cases p.path <;> rfl
  simp only [XRefTracePath.removeLast, XRefTracePath.push_back, hne,
    List.dropLast_concat]
  rfl

/-- C5: an `add*` call followed by `removeLast` gives back the path it started
from, module and pieces, so `print` then writes what it writes on the original
path for every indent; in particular `addValue("foo")` then `removeLast` on a
fresh path prints like the fresh path. On a path that ends in a piece,
`removeLast` leaves exactly the pieces before it. -/
theorem XRefTracePath.removeLast_after_add (fmt : ModuleFormat) (p : XRefTracePath)
    (op : AddOp) (M : ModuleDecl) (pieces : List PathPiece) (last : PathPiece)
    (ind : String) (os : raw_ostream) :
    (op.apply p).removeLast = some p
      ∧ ((op.apply p).removeLast.map fun q => q.print fmt os ind)
          = some (p.print fmt os ind)
      ∧ (((XRefTracePath.new M).addValue { text := "foo" }).removeLast.map
            fun q => q.print fmt os ind)
          = some ((XRefTracePath.new M).print fmt os ind)
      ∧ XRefTracePath.removeLast { baseM := M, path := pieces ++ [last] }
          = some { baseM := M, path := pieces } := by
  have h : (op.apply p).removeLast = some p := by
    rw [AddOp.apply_eq_push_back, XRefTracePath.removeLast_push_back]
  refine ⟨h, ?_, ?_, ?_⟩
  · rw [h]; rfl
  · rw [XRefTracePath.addValue, XRefTracePath.removeLast_push_back]; rfl
  · exact XRefTracePath.removeLast_push_back { baseM := M, path := pieces } last

/-- C6: each of the eight `add*` members leaves the earlier pieces in place and
puts after them one piece of the member's kind that carries the argument; the
module is unchanged, by the `add*` members and by `removeLast`. -/
theorem XRefTracePath.add_appends_one (p q : XRefTracePath) (name : Identifier)
    (ty : SwiftType) (code : Nat) (M : Option ModuleDecl) :
    ((p.addValue name).path = p.path ++ [PathPiece.Value name]
        ∧ (PathPiece.Value name).kind = PathPiece.Kind.Value
        ∧ (p.addValue name).baseM = p.baseM)
      ∧ ((p.addType ty).path = p.path ++ [PathPiece.«Type» ty]
        ∧ (PathPiece.«Type» ty).kind = PathPiece.Kind.«Type»
        ∧ (p.addType ty).baseM = p.baseM)
      ∧ ((p.addOperator name).path = p.path ++ [PathPiece.Operator name]
        ∧ (PathPiece.Operator name).kind = PathPiece.Kind.Operator
        ∧ (p.addOperator name).baseM = p.baseM)
      ∧ ((p.addOperatorFilter code).path = p.path ++ [PathPiece.OperatorFilter code]
        ∧ (PathPiece.OperatorFilter code).kind = PathPiece.Kind.OperatorFilter
        ∧ (p.addOperatorFilter code).baseM = p.baseM)
      ∧ ((p.addAccessor code).path = p.path ++ [PathPiece.Accessor code]
        ∧ (PathPiece.Accessor code).kind = PathPiece.Kind.Accessor
        ∧ (p.addAccessor code).baseM = p.baseM)
      ∧ ((p.addExtension M).path = p.path ++ [PathPiece.Extension M]
        ∧ (PathPiece.Extension M).kind = PathPiece.Kind.Extension
        ∧ (p.addExtension M).baseM = p.baseM)
      ∧ ((p.addGenericParam code).path = p.path ++ [PathPiece.GenericParam code]
        ∧ (PathPiece.GenericParam code).kind = PathPiece.Kind.GenericParam
        ∧ (p.addGenericParam code).baseM = p.baseM)
      ∧ ((p.addUnknown code).path = p.path ++ [PathPiece.Unknown code]
        ∧ (PathPiece.Unknown code).kind = PathPiece.Kind.Unknown
        ∧ (p.addUnknown code).baseM = p.baseM)
      ∧ (p.removeLast = some q → q.baseM = p.baseM) := by
  refine ⟨⟨rfl, rfl, rfl⟩, ⟨rfl, rfl, rfl⟩, ⟨rfl, rfl, rfl⟩, ⟨rfl, rfl, rfl⟩,
    ⟨rfl, rfl, rfl⟩, ⟨rfl, rfl, rfl⟩, ⟨rfl, rfl, rfl⟩, ⟨rfl, rfl, rfl⟩, ?_⟩
  intro h
  unfold XRefTracePath.removeLast at h
  split at h
  · exact absurd h (by simp)
  · rw [← Option.some.inj h]

/-- Evaluation of C6 on a path that holds one piece: `addAccessor` puts an
accessor piece after it and `removeLast` keeps the module. -/
theorem XRefTracePath.add_appends_one_witness :
    XRefTracePath.removeLast
        { baseM := { name := { text := "M" } },
          path := [PathPiece.Value { text := "f" }] }
        = some (XRefTracePath.new { name := { text := "M" } })
      ∧ (XRefTracePath.addAccessor
          { baseM := { name := { text := "M" } },
            path := [PathPiece.Value { text := "f" }] } 1).path
        = [PathPiece.Value { text := "f" }, PathPiece.Accessor 1]
      ∧ (XRefTracePath.new { name := { text := "M" } }).baseM
        = ({ baseM := { name := { text := "M" } },
             path := [PathPiece.Value { text := "f" }] } : XRefTracePath).baseM :=
  have h := XRefTracePath.add_appends_one
    { baseM := { name := { text := "M" } }, path := [PathPiece.Value { text := "f" }] }
    (XRefTracePath.new { name := { text := "M" } })
    { text := "g" } { text := "Int" } 1 none
  ⟨by decide, h.2.2.2.2.1.1, h.2.2.2.2.2.2.2.2 (by decide)⟩

/-! ## Rendering of the pieces -/

/-- C7: the piece appended by `addOperatorFilter` renders as "(infix)",
"(prefix)" or "(postfix)" when its code is `Infix`, `Prefix` or `Postfix`, and
as "(unknown operator filter)" for every other code; whatever the code, one of
these four fragments is written. -/
theorem PathPiece.operatorFilter_renders (fmt : ModuleFormat) (p : XRefTracePath)
    (c : Nat) (os : raw_ostream) (hd : fmt.fixityCodes.Nodup) :
    (p.addOperatorFilter c).path.getLast? = some (PathPiece.OperatorFilter c)
      ∧ (c = fmt.Infix → (PathPiece.OperatorFilter c).print fmt os = os ++ "(infix)")
      ∧ (c = fmt.Prefix → (PathPiece.OperatorFilter c).print fmt os = os ++ "(prefix)")
      ∧ (c = fmt.Postfix →
          (PathPiece.OperatorFilter c).print fmt os = os ++ "(postfix)")
      ∧ (c ∉ fmt.fixityCodes →
          (PathPiece.OperatorFilter c).print fmt os = os ++ "(unknown operator filter)")
      ∧ (PathPiece.OperatorFilter c).print fmt ""
          ∈ ["(infix)", "(prefix)", "(postfix)", "(unknown operator filter)"] := by
  simp only [ModuleFormat.fixityCodes, List.nodup_cons, List.mem_cons, List.mem_singleton,
    List.not_mem_nil, not_or, not_false_eq_true, List.nodup_nil, and_true, or_false] at hd
  obtain ⟨⟨h12, h13⟩, h23⟩ := hd
  refine ⟨?_, ?_, ?_, ?_, ?_, ?_⟩
  · simp [XRefTracePath.addOperatorFilter, XRefTracePath.push_back]
  · intro h; simp [PathPiece.print, PathPiece.printOperatorFilter, h]
  · intro h
    simp [PathPiece.print, PathPiece.printOperatorFilter, h, Ne.symm h12]
  · intro h
    simp [PathPiece.print, PathPiece.printOperatorFilter, h, Ne.symm h13, Ne.symm h23]
  · intro h
    simp only [ModuleFormat.fixityCodes, List.mem_cons, List.mem_singleton,
      List.not_mem_nil, or_false, not_or] at h
    simp [PathPiece.print, PathPiece.printOperatorFilter, h.1, h.2.1, h.2.2]
  · simp only [PathPiece.print, PathPiece.printOperatorFilter]
    repeat' split
    all_goals simp

/-- Evaluation of C7 with the sample encoding: code 1 is `Prefix`, code 200 is
none of the three. -/
theorem PathPiece.operatorFilter_renders_witness :
    sampleFormat.fixityCodes.Nodup
      ∧ (PathPiece.OperatorFilter 1).print sampleFormat "" = "" ++ "(prefix)"
      ∧ (PathPiece.OperatorFilter 200).print sampleFormat ""
          = "" ++ "(unknown operator filter)" :=
  ⟨by decide,
    (PathPiece.operatorFilter_renders sampleFormat
      (XRefTracePath.new { name := { text := "M" } }) 1 "" (by decide)).2.2.1
      (by decide),
    (PathPiece.operatorFilter_renders sampleFormat
      (XRefTracePath.new { name := { text := "M" } }) 200 "" (by decide)).2.2.2.2.1
      (by decide)⟩

/-- C8: the piece appended by `addAccessor` renders as "(getter)", "(setter)",
"(materializeForSet)", "(addressor)", "(mutableAddressor)", "(willSet)" or
"(didSet)" when its code is the enumerator of that name, and as "(unknown
accessor kind)" for every other code. -/
theorem PathPiece.accessor_renders (fmt : ModuleFormat) (p : XRefTracePath)
    (c : Nat) (os : raw_ostream) (hd : fmt.accessorCodes.Nodup) :
    (p.addAccessor c).path.getLast? = some (PathPiece.Accessor c)
      ∧ (c = fmt.Getter → (PathPiece.Accessor c).print fmt os = os ++ "(getter)")
      ∧ (c = fmt.Setter → (PathPiece.Accessor c).print fmt os = os ++ "(setter)")
      ∧ (c = fmt.MaterializeForSet → (PathPiece.Accessor c).print fmt os = os ++ "(materializeForSet)")
      ∧ (c = fmt.Addressor → (PathPiece.Accessor c).print fmt os = os ++ "(addressor)")
      ∧ (c = fmt.MutableAddressor → (PathPiece.Accessor c).print fmt os = os ++ "(mutableAddressor)")
      ∧ (c = fmt.WillSet → (PathPiece.Accessor c).print fmt os = os ++ "(willSet)")
      ∧ (c = fmt.DidSet → (PathPiece.Accessor c).print fmt os = os ++ "(didSet)")
      ∧ (c ∉ fmt.accessorCodes →
          (PathPiece.Accessor c).print fmt os = os ++ "(unknown accessor kind)") := by
  simp only [ModuleFormat.accessorCodes, List.nodup_cons, List.mem_cons,
    List.mem_singleton, List.not_mem_nil, not_or, not_false_eq_true, List.nodup_nil,
    and_true, or_false] at hd
  refine ⟨?_, ?_, ?_, ?_, ?_, ?_, ?_, ?_, ?_⟩
  · simp [XRefTracePath.addAccessor, XRefTracePath.push_back]
  all_goals
    intro h
    try simp only [ModuleFormat.accessorCodes, List.mem_cons, List.mem_singleton,
      List.not_mem_nil, or_false, not_or] at h
    simp only [PathPiece.print, PathPiece.printAccessor]
    split_ifs <;> first | rfl | (exfalso; simp_all)

/-- Evaluation of C8 with the sample encoding: code 4 is `MaterializeForSet`,
code 9 is none of the seven. -/
theorem PathPiece.accessor_renders_witness :
    sampleFormat.accessorCodes.Nodup
      ∧ (PathPiece.Accessor 4).print sampleFormat "" = "" ++ "(materializeForSet)"
      ∧ (PathPiece.Accessor 9).print sampleFormat ""
          = "" ++ "(unknown accessor kind)" :=
  ⟨by decide,
    (PathPiece.accessor_renders sampleFormat
      (XRefTracePath.new { name := { text := "M" } }) 4 "" (by decide)).2.2.2.1
      (by decide),
    (PathPiece.accessor_renders sampleFormat
      (XRefTracePath.new { name := { text := "M" } }) 9 "" (by decide)).2.2.2.2.2.2.2.2
      (by decide)⟩

/-- C9: an `Extension` piece renders as "in an extension in any module" when its
module pointer is null and as "in an extension in module '<name>'" when it
points to a module of display name `<name>`; for the name "Foo" the text is
"in an extension in module 'Foo'". -/
theorem PathPiece.extension_renders (fmt : ModuleFormat) (p : XRefTracePath)
    (M : ModuleDecl) (os : raw_ostream) :
    (p.addExtension none).path.getLast? = some (PathPiece.Extension none)
      ∧ (PathPiece.Extension none).print fmt os = os ++ "in an extension in any module"
      ∧ (p.addExtension (some M)).path.getLast? = some (PathPiece.Extension (some M))
      ∧ (PathPiece.Extension (some M)).print fmt os
          = os ++ ("in an extension in module '" ++ M.getName.text ++ "'")
      ∧ (PathPiece.Extension (some { name := { text := "Foo" } })).print fmt ""
          = "in an extension in module 'Foo'" := by
  refine ⟨?_, rfl, ?_, ?_, rfl⟩
  · simp [XRefTracePath.addExtension, XRefTracePath.push_back]
  · simp [XRefTracePath.addExtension, XRefTracePath.push_back]
  · simp only [PathPiece.print, String.append_assoc]

/-- C10: a `Value` piece renders as the text of its name, a `Type` piece as "with
type " and the text of the type, an `Operator` piece as "operator " and the
text of the name, a `GenericParam` piece as "generic param #" and the decimal
numeral of its index, an `Unknown` piece as "unknown xref kind " and the decimal
numeral of its code. -/
theorem PathPiece.payload_renders (fmt : ModuleFormat) (name : Identifier)
    (ty : SwiftType) (i c : Nat) (os : raw_ostream) :
    (PathPiece.Value name).print fmt os = os ++ name.text
      ∧ (PathPiece.«Type» ty).print fmt os = os ++ ("with type " ++ ty.text)
      ∧ (PathPiece.Operator name).print fmt os = os ++ ("operator " ++ name.text)
      ∧ (PathPiece.GenericParam i).print fmt os
          = os ++ ("generic param #" ++ Nat.repr i)
      ∧ (PathPiece.Unknown c).print fmt os
          = os ++ ("unknown xref kind " ++ Nat.repr c)
      ∧ (PathPiece.GenericParam 12).print fmt "" = "generic param #12"
      ∧ (PathPiece.Unknown 0).print fmt "" = "unknown xref kind 0" := by
  refine ⟨rfl, ?_, ?_, ?_, ?_, ?_, ?_⟩
  · simp only [PathPiece.print, String.append_assoc]
  · simp only [PathPiece.print, String.append_assoc]
  · simp only [PathPiece.print, String.append_assoc]
  · simp only [PathPiece.print, String.append_assoc]
  · rfl
  · rfl

/-! ## What the errors log and how they are classified -/

/-- C11: `XRefError::log` extends the sink by exactly the stored message, a
newline, and what `print` of the stored path writes with the empty indent. -/
theorem XRefError.log_message_then_path (fmt : ModuleFormat) (msg : String)
    (p : XRefTracePath) (OS : raw_ostream) :
    (XRefError.new msg p).log fmt OS = OS ++ (msg ++ "\n" ++ p.print fmt "" "") := by
  simp only [XRefError.new, ErrorInfoBase.log, XRefTracePath.printDefault]
  rw [XRefTracePath.print_sink_append]
  simp only [String.append_assoc]

/-- C12: `OverrideError(Y)` logs exactly "could not find '<Y>' in parent class"
and is classified `Normal`; built with `DesignatedInitializer` it has that
classification and logs the same text: the text does not depend on the
classification. -/
theorem OverrideError.log_text (fmt : ModuleFormat) (Y : DeclName)
    (kind : DeclDeserializationError.Kind) (OS : raw_ostream) :
    (OverrideError.newDefault Y).log fmt OS
        = OS ++ ("could not find '" ++ Y.text ++ "' in parent class")
      ∧ (OverrideError.newDefault Y).getKind = some .Normal
      ∧ (OverrideError.new Y .DesignatedInitializer).getKind
          = some .DesignatedInitializer
      ∧ (OverrideError.new Y .DesignatedInitializer).log fmt OS
          = (OverrideError.newDefault Y).log fmt OS
      ∧ (OverrideError.new Y kind).log fmt OS
          = OS ++ ("could not find '" ++ Y.text ++ "' in parent class")
      ∧ (OverrideError.newDefault { text := "Y" }).log fmt ""
          = "could not find 'Y' in parent class" := by
  refine ⟨?_, rfl, rfl, rfl, ?_, rfl⟩
  · simp only [OverrideError.newDefault, OverrideError.new, ErrorInfoBase.log,
      String.append_assoc]
  · simp only [OverrideError.new, ErrorInfoBase.log, String.append_assoc]

/-- C13: every error of the three classes has a classification, and `getKind`
returns the one given to the constructor: the argument for an `OverrideError`
and for a `TypeError`, with or without a cause, `Normal` when the argument is
omitted, and always `Normal` for an `XRefError`. -/
theorem ErrorInfoBase.getKind_as_constructed (name : DeclName)
    (kind : DeclDeserializationError.Kind) (cause : Option ErrorInfoBase)
    (msg : String) (p : XRefTracePath) :
    (OverrideError.new name kind).getKind = some kind
      ∧ (OverrideError.newDefault name).getKind = some .Normal
      ∧ (TypeError.new name cause kind).getKind = some kind
      ∧ (TypeError.newDefault name cause).getKind = some .Normal
      ∧ (XRefError.new msg p).getKind = some .Normal
      ∧ (kind = .Normal ∨ kind = .DesignatedInitializer) := by
  refine ⟨rfl, rfl, rfl, rfl, rfl, ?_⟩
  cases kind
  · exact Or.inl rfl
  · exact Or.inr rfl

/-- C14: `convertToErrorCode` returns the inconvertible marker for every
`XRefError`, `OverrideError` and `TypeError`, whatever they hold. -/
theorem ErrorInfoBase.convertToErrorCode_inconvertible (name : DeclName)
    (kind : DeclDeserializationError.Kind) (cause : Option ErrorInfoBase)
    (msg : String) (p : XRefTracePath) :
    (XRefError.new msg p).convertToErrorCode = error_code.inconvertibleErrorCode
      ∧ (OverrideError.new name kind).convertToErrorCode
          = error_code.inconvertibleErrorCode
      ∧ (TypeError.new name cause kind).convertToErrorCode
          = error_code.inconvertibleErrorCode :=
  ⟨rfl, rfl, rfl⟩

/-- C19: the classification of a `TypeError` is the constructor argument,
whatever its cause: `Normal` when the argument is omitted, also over a cause
classified `DesignatedInitializer`; and `isA` on a `TypeError` answers the same
for every class token whatever the cause. -/
theorem TypeError.kind_not_inherited (name inner : DeclName)
    (c c2 : Option ErrorInfoBase) (k : DeclDeserializationError.Kind)
    (X : ClassID) :
    (TypeError.new name c k).getKind = some k
      ∧ (TypeError.newDefault name c).getKind = some .Normal
      ∧ (TypeError.newDefault name
            (some (OverrideError.new inner .DesignatedInitializer))).getKind
          = some .Normal
      ∧ (TypeError.newDefault name
            (some (TypeError.new inner c .DesignatedInitializer))).getKind
          = some .Normal
      ∧ (TypeError.new name c k).isA X = (TypeError.new name c2 k).isA X :=
  ⟨rfl, rfl, rfl, rfl, rfl⟩

theorem AddOp.applyAll_concat (ops : List AddOp) (op : AddOp) (p : XRefTracePath) :
    AddOp.applyAll (ops ++ [op]) p = op.apply (AddOp.applyAll ops p) := by
  simp [AddOp.applyAll, List.foldl_append]

/-- A run of `add*` calls appends the pieces it builds, in call order. -/
theorem AddOp.applyAll_path (ops : List AddOp) (p : XRefTracePath) :
    AddOp.applyAll ops p
      = { baseM := p.baseM, path := p.path ++ ops.map AddOp.piece } := by
  induction ops generalizing p with
  | nil => simp [AddOp.applyAll]
  | cons op rest ih =>
    have h : AddOp.applyAll (op :: rest) p = AddOp.applyAll rest (op.apply p) := rfl
    rw [h, ih, AddOp.apply_eq_push_back]
    simp [XRefTracePath.push_back]

/-- Popping `j` times after a run of at least `j` `add*` calls leaves the path
built by the calls before the last `j`. -/
theorem XRefTracePath.removeLastN_applyAll (p : XRefTracePath) :
    ∀ (j : Nat) (ops : List AddOp), j ≤ ops.length →
      XRefTracePath.removeLastN j (AddOp.applyAll ops p)
        = some (AddOp.applyAll (ops.take (ops.length - j)) p) := by
  intro j
  induction j with
  | zero =>
    intro ops _
    simp [XRefTracePath.removeLastN]
  | succ j ih =>
    intro ops hj
    rcases List.eq_nil_or_concat ops with h | ⟨init, last, h⟩
    · subst h; simp at hj
    · rw [List.concat_eq_append] at h
      subst h
      have hlen : j ≤ init.length := by
        simp only [List.length_append, List.length_singleton] at hj
        omega
      have htake : (init ++ [last]).take ((init ++ [last]).length - (j + 1))
          = init.take (init.length - j) := by
        simp only [List.length_append, List.length_singleton,
          Nat.add_sub_add_right]
        rw [List.take_append_of_le_length (Nat.sub_le _ _)]
      rw [htake, AddOp.applyAll_concat]
      simp only [XRefTracePath.removeLastN]
      rw [AddOp.apply_eq_push_back, XRefTracePath.removeLast_push_back]
      exact ih init hlen

/-- C18: after any `k` `add*` calls on a path, `j ≤ k` calls of `removeLast`
leave the path followed by the first `k - j` appended pieces in append order,
and `k` calls of `removeLast` give back the path itself, module and pieces. -/
theorem XRefTracePath.stack_discipline (p : XRefTracePath) (ops : List AddOp)
    (j : Nat) (hj : j ≤ ops.length) :
    XRefTracePath.removeLastN j (AddOp.applyAll ops p)
        = some (AddOp.applyAll (ops.take (ops.length - j)) p)
      ∧ XRefTracePath.removeLastN j (AddOp.applyAll ops p)
        = some { baseM := p.baseM,
                 path := p.path ++ (ops.take (ops.length - j)).map AddOp.piece }
      ∧ XRefTracePath.removeLastN ops.length (AddOp.applyAll ops p) = some p := by
  have h := XRefTracePath.removeLastN_applyAll p j ops hj
  refine ⟨h, ?_, ?_⟩
  · rw [h, AddOp.applyAll_path]
  · rw [XRefTracePath.removeLastN_applyAll p ops.length ops (Nat.le_refl _)]
    simp [AddOp.applyAll]

/-- Evaluation of C18: three `add*` calls on a path of one piece, then two
calls of `removeLast`. -/
theorem XRefTracePath.stack_discipline_witness :
    2 ≤ [AddOp.addValue { text := "a" }, AddOp.addType { text := "T" },
          AddOp.addAccessor 1].length
      ∧ XRefTracePath.removeLastN 2
          (AddOp.applyAll
            [AddOp.addValue { text := "a" }, AddOp.addType { text := "T" },
              AddOp.addAccessor 1]
            { baseM := { name := { text := "M" } },
              path := [PathPiece.Operator { text := "+" }] })
        = some { baseM := { name := { text := "M" } },
                 path := [PathPiece.Operator { text := "+" },
                          PathPiece.Value { text := "a" }] } :=
  ⟨by decide,
    (XRefTracePath.stack_discipline
      { baseM := { name := { text := "M" } },
        path := [PathPiece.Operator { text := "+" }] }
      [AddOp.addValue { text := "a" }, AddOp.addType { text := "T" },
        AddOp.addAccessor 1] 2 (by decide)).2.1⟩

/-! ## Lines of the printed path -/

theorem singleLine_append (a b : String) :
    singleLine (a ++ b) ↔ singleLine a ∧ singleLine b := by
  simp [singleLine, String.data_append, List.mem_append, not_or]

theorem digitChar_ne_newline (n : Nat) : Nat.digitChar n ≠ '\n' := by
  by_cases h0 : n = 0
  · subst h0; decide
  by_cases h1 : n = 1
  · subst h1; decide
  by_cases h2 : n = 2
  · subst h2; decide
  by_cases h3 : n = 3
  · subst h3; decide
  by_cases h4 : n = 4
  · subst h4; decide
  by_cases h5 : n = 5
  · subst h5; decide
  by_cases h6 : n = 6
  · subst h6; decide
  by_cases h7 : n = 7
  · subst h7; decide
  by_cases h8 : n = 8
  · subst h8; decide
  by_cases h9 : n = 9
  · subst h9; decide
  by_cases h10 : n = 10
  · subst h10; decide
  by_cases h11 : n = 11
  · subst h11; decide
  by_cases h12 : n = 12
  · subst h12; decide
  by_cases h13 : n = 13
  · subst h13; decide
  by_cases h14 : n = 14
  · subst h14; decide
  by_cases h15 : n = 15
  · subst h15; decide
  simp only [Nat.digitChar, h0, h1, h2, h3, h4, h5, h6, h7, h8, h9, h10, h11, h12, h13, h14, h15, if_false]
  decide

theorem toDigitsCore_no_newline (fuel : Nat) :
    ∀ (n : Nat) (ds : List Char), '\n' ∉ ds → '\n' ∉ Nat.toDigitsCore 10 fuel n ds := by
  induction fuel with
  | zero => intro n ds h; simpa [Nat.toDigitsCore] using h
  | succ fuel ih =>
    intro n ds h
    have hd : '\n' ∉ Nat.digitChar (n % 10) :: ds := by
      simp only [List.mem_cons, not_or]
      exact ⟨fun hc => digitChar_ne_newline _ hc.symm, h⟩
    simp only [Nat.toDigitsCore]
    split
    · exact hd
    · exact ih _ _ hd

theorem singleLine_repr (n : Nat) : singleLine (Nat.repr n) := by
  simp only [singleLine, Nat.repr, Nat.toDigits, List.asString]
  exact toDigitsCore_no_newline _ _ _ (by simp)

theorem singleLine_render (fmt : ModuleFormat) (piece : PathPiece)
    (h : singleLine piece.payloadText) : singleLine (piece.print fmt "") := by
  cases piece with
  | Value name => simpa [PathPiece.print, PathPiece.payloadText] using h
  | «Type» ty =>
    simp only [PathPiece.print, PathPiece.payloadText, singleLine_append] at h ⊢
    exact ⟨⟨by decide, by decide⟩, h⟩
  | Operator name =>
    simp only [PathPiece.print, PathPiece.payloadText, singleLine_append] at h ⊢
    exact ⟨⟨by decide, by decide⟩, h⟩
  | OperatorFilter c =>
    simp only [PathPiece.print, PathPiece.printOperatorFilter]
    split_ifs <;> decide
  | Accessor c =>
    simp only [PathPiece.print, PathPiece.printAccessor]
    split_ifs <;> decide
  | Extension M =>
    cases M with
    | none => simp only [PathPiece.print]; decide
    | some M =>
      simp only [PathPiece.print, PathPiece.payloadText, singleLine_append] at h ⊢
      exact ⟨⟨⟨by decide, by decide⟩, h⟩, by decide⟩
  | GenericParam i =>
    simp only [PathPiece.print, singleLine_append]
    exact ⟨⟨by decide, by decide⟩, singleLine_repr i⟩
  | Unknown c =>
    simp only [PathPiece.print, singleLine_append]
    exact ⟨⟨by decide, by decide⟩, singleLine_repr c⟩

theorem splitLines_line (l : List Char) :
    ∀ (cur rest : List Char), '\n' ∉ l →
      splitLines (l ++ '\n' :: rest) cur
        = (splitLines rest []).map (String.mk (cur.reverse ++ l) :: ·) := by
  induction l with
  | nil => intro cur rest _; simp [splitLines]
  | cons c l ih =>
    intro cur rest h
    simp only [List.mem_cons, not_or] at h
    have hc : c ≠ '\n' := fun hc => h.1 hc.symm
    have hstep : splitLines (c :: l ++ '\n' :: rest) cur
        = splitLines (l ++ '\n' :: rest) (c :: cur) := by
      simp only [List.cons_append, splitLines, hc, if_false]
      rfl
    rw [hstep, ih (c :: cur) rest h.2]
    simp

theorem linesOf_join (ls : List String) (h : ∀ a ∈ ls, singleLine a) :
    linesOf (String.join (ls.map fun a => a ++ "\n")) = some ls := by
  induction ls with
  | nil => rfl
  | cons a rest ih =>
    have hrest := ih (fun b hb => h b (List.mem_cons_of_mem _ hb))
    have ha : '\n' ∉ a.data := h a (List.mem_cons_self _ _)
    simp only [linesOf] at hrest ⊢
    simp only [List.map_cons, join_cons_eq, String.data_append]
    rw [List.append_assoc, List.singleton_append, splitLines_line a.data [] _ ha,
      hrest]
    rfl

/-- C15, as stated, fails for a payload whose text holds a newline: one
`addValue` of the name "a", newline, "b" on a fresh path prints three
newline-terminated lines, not the two lines "header" and "... " with the
rendering of the piece. -/
theorem XRefTracePath.print_line_count_fails :
    linesOf ((AddOp.applyAll [AddOp.addValue { text := "a\nb" }]
        (XRefTracePath.new { name := { text := "M" } })).print sampleFormat "" "")
        = some ["Cross-reference to module 'M'", "... a", "b"]
      ∧ (linesOf ((AddOp.applyAll [AddOp.addValue { text := "a\nb" }]
          (XRefTracePath.new { name := { text := "M" } })).print sampleFormat ""
            "")).map List.length
        ≠ some ([AddOp.addValue { text := "a\nb" }].length + 1)
      ∧ linesOf ((AddOp.applyAll [AddOp.addValue { text := "a\nb" }]
          (XRefTracePath.new { name := { text := "M" } })).print sampleFormat "" "")
        ≠ some ["Cross-reference to module 'M'",
            "... " ++ (PathPiece.Value { text := "a\nb" }).print sampleFormat ""] := by
  have h : linesOf ((AddOp.applyAll [AddOp.addValue { text := "a\nb" }]
      (XRefTracePath.new { name := { text := "M" } })).print sampleFormat "" "")
      = some ["Cross-reference to module 'M'", "... a", "b"] := by
    rfl
  refine ⟨h, ?_, ?_⟩
  · rw [h]; decide
  · rw [h]; decide

/-- C15, amended: `N` `add*` calls on a fresh path followed by `print` write
the header and then, in append order, one newline-terminated text per appended
piece, made of the indent, "... " and the rendering of the piece; when the
module name, the indent and the texts of the payloads hold no newline, these
are exactly the `N + 1` lines of the output. -/
theorem XRefTracePath.print_lines (fmt : ModuleFormat) (M : ModuleDecl)
    (ops : List AddOp) (ind : String) (os : raw_ostream) :
    (AddOp.applyAll ops (XRefTracePath.new M)).path = ops.map AddOp.piece
      ∧ (AddOp.applyAll ops (XRefTracePath.new M)).print fmt os ind
        = os ++ String.join
            ((("Cross-reference to module '" ++ M.getName.text ++ "'")
                :: ops.map fun op => ind ++ "... " ++ op.piece.print fmt "").map
              fun line => line ++ "\n")
      ∧ (singleLine M.getName.text → singleLine ind →
          (∀ op ∈ ops, singleLine op.piece.payloadText) →
          linesOf ((AddOp.applyAll ops (XRefTracePath.new M)).print fmt "" ind)
              = some (("Cross-reference to module '" ++ M.getName.text ++ "'")
                  :: ops.map fun op => ind ++ "... " ++ op.piece.print fmt "")
            ∧ (("Cross-reference to module '" ++ M.getName.text ++ "'")
                  :: ops.map fun op => ind ++ "... " ++ op.piece.print fmt "").length
              = ops.length + 1) := by
  have hp : AddOp.applyAll ops (XRefTracePath.new M)
      = { baseM := M, path := ops.map AddOp.piece } := by
    rw [AddOp.applyAll_path]; simp [XRefTracePath.new]
  have hprint : ∀ os : raw_ostream,
      (AddOp.applyAll ops (XRefTracePath.new M)).print fmt os ind
        = os ++ String.join
            ((("Cross-reference to module '" ++ M.getName.text ++ "'")
                :: ops.map fun op => ind ++ "... " ++ op.piece.print fmt "").map
              fun line => line ++ "\n") := by
    intro os
    have hJ : (ops.map AddOp.piece).map
          (fun piece => ind ++ "... " ++ piece.print fmt "" ++ "\n")
        = (ops.map fun op => ind ++ "... " ++ op.piece.print fmt "").map
          (fun line => line ++ "\n") := by
      simp only [List.map_map]
      rfl
    have hq : ("'\n" : String) = "'" ++ "\n" := by decide
    rw [hp, XRefTracePath.print_unfold]
    simp only [List.map_cons, join_cons_eq]
    rw [hJ, hq]
    simp only [String.append_assoc]
  refine ⟨by rw [hp], hprint os, ?_⟩
  intro hM hind hops
  refine ⟨?_, by simp⟩
  rw [hprint "", String.empty_append]
  apply linesOf_join
  intro a ha
  simp only [List.mem_cons, List.mem_map] at ha
  rcases ha with rfl | ⟨op, hop, rfl⟩
  · simp only [singleLine_append]
    exact ⟨⟨by decide, hM⟩, by decide⟩
  · simp only [singleLine_append]
    exact ⟨⟨hind, by decide⟩, singleLine_render fmt _ (hops op hop)⟩

/-- Evaluation of C15, amended, on two `add*` calls with the indent of two
blanks. -/
theorem XRefTracePath.print_lines_witness :
    singleLine "M" ∧ singleLine "  "
      ∧ (∀ op ∈ [AddOp.addValue { text := "foo" }, AddOp.addOperatorFilter 1],
          singleLine op.piece.payloadText)
      ∧ linesOf ((AddOp.applyAll
            [AddOp.addValue { text := "foo" }, AddOp.addOperatorFilter 1]
            (XRefTracePath.new { name := { text := "M" } })).print sampleFormat ""
              "  ")
        = some ["Cross-reference to module 'M'", "  ... foo", "  ... (prefix)"] :=
  ⟨by decide, by decide, by decide,
    ((XRefTracePath.print_lines sampleFormat { name := { text := "M" } }
      [AddOp.addValue { text := "foo" }, AddOp.addOperatorFilter 1] "  " "").2.2
      (by decide) (by decide) (by decide)).1⟩

end Serialization
